import Mathlib

/-!
Shallow embedding of the core of the rust-8080 emulator (src/i8080.rs and
src/machine.rs): flag register, CPU state, memory access, the implemented
opcodes of `State8080::emulate`, `State8080::interrupt`, the
`SpaceInvadersIO` port shim and the `SpaceInvaders::screen` video decoder.

Conventions.  Machine integers are embedded as `Nat` with explicit
`% 256` / `% 65536` where the Rust code truncates (casts `as u8`/`as u16`,
`wrapping_add`/`wrapping_sub`, shifts on `u8`, release-mode wrap of
`+`/`-` on `u16`).  A Rust `panic!`, index-out-of-bounds, `process::exit`
on `HLT` or on an unimplemented opcode is modelled as `Option.none`.
Memory is a function `Nat → Nat`; reads truncate with `% 256`, encoding
the `u8` element type of the array.
-/

/-- Embeds `struct Flags` of src/i8080.rs. -/
structure Flags where
  zero : Bool
  sign_negative : Bool
  even_parity : Bool
  carry : Bool
  aux_carry : Bool
deriving DecidableEq

/-- `Flags::psw`: pack the five flags into one byte,
bit layout CY=0, P=2, AC=4, Z=6, S=7.  The source ors disjoint bits, which
equals this sum. -/
def Flags.psw (f : Flags) : Nat :=
  (if f.carry then 1 else 0) +
  (if f.even_parity then 4 else 0) +
  (if f.aux_carry then 16 else 0) +
  (if f.zero then 64 else 0) +
  (if f.sign_negative then 128 else 0)

/-- `Flags::set_psw`: set each flag from its bit of the byte. -/
def Flags.set_psw (psw : Nat) : Flags where
  carry := Nat.land psw 1 != 0
  even_parity := Nat.land psw 4 != 0
  aux_carry := Nat.land psw 16 != 0
  zero := Nat.land psw 64 != 0
  sign_negative := Nat.land psw 128 != 0

/-- `MEMORY_SIZE` of src/i8080.rs. -/
def MEMORY_SIZE : Nat := 0x4000

/-- Embeds `struct State8080`.  The Rust `RegisterPair` unions BC, DE, HL
are represented by their two bytes (`msb` is the first-named register). -/
structure State8080 where
  a : Nat
  b : Nat
  c : Nat
  d : Nat
  e : Nat
  h : Nat
  l : Nat
  sp : Nat
  pc : Nat
  memory : Nat → Nat
  flags : Flags
  interrupts_enabled : Bool
  cycle_debt : Nat

namespace State8080

/-- `State8080::new`: ROM copied in at address 0, the rest zeroed. -/
def new (rom : List Nat) : State8080 where
  a := 0
  b := 0
  c := 0
  d := 0
  e := 0
  h := 0
  l := 0
  sp := 0
  pc := 0
  memory := fun addr => rom.getD addr 0 % 256
  flags := ⟨false, false, false, false, false⟩
  interrupts_enabled := false
  cycle_debt := 0

/-- `RegisterPair::both` for BC: msb `b`, lsb `c`. -/
def bc (s : State8080) : Nat := s.b * 256 + s.c

/-- `RegisterPair::both` for DE. -/
def de (s : State8080) : Nat := s.d * 256 + s.e

/-- `RegisterPair::both` for HL. -/
def hl (s : State8080) : Nat := s.h * 256 + s.l

/-- `State8080::af`: `(a << 8) | psw`. -/
def af (s : State8080) : Nat := Nat.lor (s.a * 256) s.flags.psw

/-- `State8080::read_byte`: `self.memory[address as usize]`; the index
panics when `address ≥ MEMORY_SIZE` (none).  `% 256` encodes the `u8`
element type. -/
def read_byte (s : State8080) (address : Nat) : Option Nat :=
  if address < MEMORY_SIZE then some (s.memory address % 256) else none

/-- `State8080::read_bytes`: little-endian 16-bit read,
`(read_byte (addr+1) << 8) | read_byte addr`. -/
def read_bytes (s : State8080) (address : Nat) : Option Nat := do
  let hi ← s.read_byte (address + 1)
  let lo ← s.read_byte address
  pure (hi * 256 + lo)

/-- `State8080::read_byte_immediate`: byte following the instruction. -/
def read_byte_immediate (s : State8080) : Option Nat :=
  s.read_byte (s.pc + 1)

/-- `State8080::read_bytes_immediate`: two bytes following the
instruction. -/
def read_bytes_immediate (s : State8080) : Option Nat :=
  s.read_bytes (s.pc + 1)

/-- `State8080::write_byte`: traps (`panic!`) when `address < 0x2000`
(ROM), then stores; the index itself panics when
`address ≥ MEMORY_SIZE`. -/
def write_byte (s : State8080) (address value : Nat) : Option State8080 :=
  if address < 0x2000 then none
  else if address < MEMORY_SIZE then
    some { s with memory := fun x => if x = address then value % 256 else s.memory x }
  else none

/-- `State8080::write_bytes`: little-endian store, `addr` then
`addr + 1`; the casts `as u8` are the `% 256`. -/
def write_bytes (s : State8080) (address value : Nat) : Option State8080 := do
  let s1 ← s.write_byte address (value % 256)
  s1.write_byte (address + 1) (value / 256 % 256)

/-- `State8080::m_mut` as a store: `self.memory[self.hl() as usize] = v`.
Note: unlike `write_byte` there is no ROM check; only the array bound
panics. -/
def write_m (s : State8080) (value : Nat) : Option State8080 :=
  if s.hl < MEMORY_SIZE then
    some { s with memory := fun x => if x = s.hl then value % 256 else s.memory x }
  else none

/-- `State8080::pop`: read 16 bits at SP, then `sp += 2` (u16 wrap). -/
def pop (s : State8080) : Option (State8080 × Nat) := do
  let value ← s.read_bytes s.sp
  pure ({ s with sp := (s.sp + 2) % 65536 }, value)

/-- `State8080::push`: write 16 bits at `sp - 2`, then `sp -= 2`
(u16 wrap of the subtraction). -/
def push (s : State8080) (value : Nat) : Option State8080 := do
  let s1 ← s.write_bytes ((s.sp + 65536 - 2) % 65536) value
  pure { s1 with sp := (s.sp + 65536 - 2) % 65536 }

/-- `State8080::jmp`: `pc = read_bytes_immediate()`. -/
def jmp (s : State8080) : Option State8080 := do
  let target ← s.read_bytes_immediate
  pure { s with pc := target }

/-- `State8080::call`: push `pc + 3`, then jump; the immediate is read
after the push, as in the source. -/
def call (s : State8080) : Option State8080 := do
  let s1 ← s.push ((s.pc + 3) % 65536)
  let target ← s1.read_bytes_immediate
  pure { s1 with pc := target }

/-- `State8080::ret`: pop into PC. -/
def ret (s : State8080) : Option State8080 := do
  let (s1, value) ← s.pop
  pure { s1 with pc := value }

/-- `State8080::parity` helper loop: xor of the bits, accumulated while
`x != 0`; the fuel of 8 covers every `u8` input exactly. -/
def parityAux : Nat → Nat → Nat → Nat
  | 0, _, p => p
  | fuel + 1, x, p =>
    if x = 0 then p else parityAux fuel (x / 2) (Nat.xor p (Nat.land x 1))

/-- `State8080::parity`: returns `parity != 0` where `parity` is the xor
of the bits of `x`.  (So it is `true` exactly when `x` has an odd number
of 1-bits, despite the source's doc comment saying even.) -/
def parity (x : Nat) : Bool := parityAux 8 x 0 != 0

/-- `u16::trailing_zeros`, used by `State8080::add` for the zero flag;
16 for input 0. -/
def trailingZerosAux : Nat → Nat → Nat
  | 0, _ => 0
  | fuel + 1, x => if x % 2 = 1 then 0 else 1 + trailingZerosAux fuel (x / 2)

/-- `u16::trailing_zeros` on a 16-bit value. -/
def u16_trailing_zeros (x : Nat) : Nat := trailingZerosAux 16 x

/-- `u8::wrapping_add`. -/
def wrapping_add8 (a b : Nat) : Nat := (a + b) % 256

/-- `u8::wrapping_sub`. -/
def wrapping_sub8 (a b : Nat) : Nat := (a + 256 - b % 256) % 256

/-- `State8080::set_flags`: Z, S, P from `value`, CY cleared
unconditionally; AC untouched. -/
def set_flags (s : State8080) (value : Nat) : State8080 :=
  { s with flags :=
    { s.flags with
      zero := decide (value = 0)
      sign_negative := Nat.land value 128 != 0
      carry := false
      even_parity := parity value } }

/-- `State8080::add`: 16-bit sum, Z from `trailing_zeros ≥ 8`, S from
bit 7, CY from `result > 0xff`, P from parity of the low byte; A gets the
low byte. -/
def add (s : State8080) (operand : Nat) : State8080 :=
  let result := s.a + operand
  { s with
    a := result % 256
    flags :=
    { s.flags with
      zero := decide (8 ≤ u16_trailing_zeros result)
      sign_negative := Nat.land result 128 != 0
      carry := decide (0xff < result)
      even_parity := parity (result % 256) } }

/-- `State8080::dad`: 32-bit sum into HL, CY from overflow out of
bit 15. -/
def dad (s : State8080) (operand : Nat) : State8080 :=
  let result := s.hl + operand
  { s with
    h := result % 65536 / 256
    l := result % 256
    flags := { s.flags with carry := decide (0xffff < result) } }

/-- `State8080::and`: bitwise AND into A; Z, S, P from the result, CY
cleared. -/
def and (s : State8080) (operand : Nat) : State8080 :=
  let result := Nat.land s.a operand
  { s with
    a := result
    flags :=
    { s.flags with
      zero := decide (result = 0)
      sign_negative := Nat.land result 128 != 0
      carry := false
      even_parity := parity result } }

/-- `State8080::or`: bitwise OR into A; same flag rule as `and`. -/
def or (s : State8080) (operand : Nat) : State8080 :=
  let result := Nat.lor s.a operand
  { s with
    a := result
    flags :=
    { s.flags with
      zero := decide (result = 0)
      sign_negative := Nat.land result 128 != 0
      carry := false
      even_parity := parity result } }

/-- `State8080::xor`: bitwise XOR into A; same flag rule as `and`. -/
def xor (s : State8080) (operand : Nat) : State8080 :=
  let result := Nat.xor s.a operand
  { s with
    a := result
    flags :=
    { s.flags with
      zero := decide (result = 0)
      sign_negative := Nat.land result 128 != 0
      carry := false
      even_parity := parity result } }

/-- `State8080::cmp`: wrapping `A - operand`; Z, S, P from the
difference, CY iff `A < operand`; A unchanged. -/
def cmp (s : State8080) (operand : Nat) : State8080 :=
  let result := wrapping_sub8 s.a operand
  { s with flags :=
    { s.flags with
      zero := decide (result = 0)
      sign_negative := Nat.land result 128 != 0
      carry := decide (s.a < operand)
      even_parity := parity result } }

/-- `State8080::set_af`: `set_psw(value as u8)` and `a = (value >> 8) as
u8`. -/
def set_af (s : State8080) (value : Nat) : State8080 :=
  { s with flags := Flags.set_psw (value % 256), a := value / 256 % 256 }

/-- `State8080::interrupt`: while interrupts are enabled push PC, set
`pc = 8 * interrupt_num` (u16) and disable interrupts; otherwise do
nothing. -/
def interrupt (s : State8080) (interrupt_num : Nat) : Option State8080 :=
  if s.interrupts_enabled then do
    let s1 ← s.push s.pc
    pure { s1 with pc := 8 * interrupt_num % 65536, interrupts_enabled := false }
  else some s

end State8080

/-- Embeds `struct SpaceInvadersIO` of src/machine.rs.  The
`RegisterPair` shift register is its 16-bit value (`one.0` is
`shift_register % 256`, `one.1` is `shift_register / 256`). -/
structure SpaceInvadersIo where
  shift_register : Nat
  shift_amount : Nat
  port1 : Nat
  port2 : Nat
deriving DecidableEq

namespace SpaceInvadersIo

/-- `SpaceInvadersIO::new`. -/
def new : SpaceInvadersIo where
  shift_register := 0
  shift_amount := 0
  port1 := 0b10010000
  port2 := 0b00100000

/-- `SpaceInvadersIO::input`: ports 1 and 2 are the stored bytes, port 3
is `(shift_register >> (8 - shift_amount)) as u8`, anything else is a
`panic!` (none). -/
def input (io : SpaceInvadersIo) (port : Nat) : Option Nat :=
  if port = 1 then some io.port1
  else if port = 2 then some io.port2
  else if port = 3 then some (io.shift_register / 2 ^ (8 - io.shift_amount) % 256)
  else none

/-- `SpaceInvadersIO::output`: port 2 sets the shift amount from the low
3 bits, port 4 moves the old high byte of the shift register into the low
byte and stores the value as the new high byte; the wildcard arm accepts
every other port with no effect. -/
def output (io : SpaceInvadersIo) (port value : Nat) : Option SpaceInvadersIo :=
  if port = 2 then some { io with shift_amount := Nat.land value 7 }
  else if port = 4 then
    some { io with shift_register := io.shift_register / 256 % 256 + value % 256 * 256 }
  else some io

end SpaceInvadersIo

namespace State8080

/-- The dispatch `match op_code` of `State8080::emulate`: performs the
instruction's effect and yields `(state, io, pc_incr, cycles)`.  `HLT`
(`process::exit`) and unimplemented opcodes (also `process::exit`) are
`none`, as are panics reached inside a handler. -/
def emulateOp (s : State8080) (io : SpaceInvadersIo) (op_code : Nat) :
    Option (State8080 × SpaceInvadersIo × Nat × Nat) :=
  -- NOP
  if op_code = 0x00 then some (s, io, 1, 4)
  -- LXI B, D16
  else if op_code = 0x01 then do
    let v ← s.read_bytes_immediate
    some ({ s with b := v / 256, c := v % 256 }, io, 3, 10)
  -- STAX B
  else if op_code = 0x02 then do
    let s1 ← s.write_byte s.bc s.a
    some (s1, io, 1, 7)
  -- INX B
  else if op_code = 0x03 then
    let v := (s.bc + 1) % 65536
    some ({ s with b := v / 256, c := v % 256 }, io, 1, 5)
  -- INR B
  else if op_code = 0x04 then
    let v := wrapping_add8 s.b 1
    some (set_flags { s with b := v } v, io, 1, 5)
  -- DCR B
  else if op_code = 0x05 then
    let v := wrapping_sub8 s.b 1
    some (set_flags { s with b := v } v, io, 1, 5)
  -- MVI B, D8
  else if op_code = 0x06 then do
    let v ← s.read_byte_immediate
    some ({ s with b := v }, io, 2, 7)
  -- RLC
  else if op_code = 0x07 then
    let bit7 := Nat.land s.a 128
    some ({ s with
            a := Nat.lor (s.a * 2 % 256) (bit7 / 128),
            flags := { s.flags with carry := bit7 != 0 } }, io, 1, 4)
  -- DAD B
  else if op_code = 0x09 then some (s.dad s.bc, io, 1, 10)
  -- LDAX B
  else if op_code = 0x0a then do
    let v ← s.read_byte s.bc
    some ({ s with a := v }, io, 1, 7)
  -- INR C
  else if op_code = 0x0c then
    let v := wrapping_add8 s.c 1
    some (set_flags { s with c := v } v, io, 1, 5)
  -- DCR C
  else if op_code = 0x0d then
    let v := wrapping_sub8 s.c 1
    some (set_flags { s with c := v } v, io, 1, 5)
  -- MVI C, D8
  else if op_code = 0x0e then do
    let v ← s.read_byte_immediate
    some ({ s with c := v }, io, 2, 7)
  -- RRC
  else if op_code = 0x0f then
    let bit0 := Nat.land s.a 1
    some ({ s with
            a := Nat.lor (s.a / 2) (bit0 * 128),
            flags := { s.flags with carry := bit0 != 0 } }, io, 1, 4)
  -- LXI D, D16
  else if op_code = 0x11 then do
    let v ← s.read_bytes_immediate
    some ({ s with d := v / 256, e := v % 256 }, io, 3, 10)
  -- INX D
  else if op_code = 0x13 then
    let v := (s.de + 1) % 65536
    some ({ s with d := v / 256, e := v % 256 }, io, 1, 5)
  -- MVI D, D8
  else if op_code = 0x16 then do
    let v ← s.read_byte_immediate
    some ({ s with d := v }, io, 2, 7)
  -- RAL
  else if op_code = 0x17 then
    let bit7 := Nat.land s.a 128
    some ({ s with
            a := Nat.lor (s.a * 2 % 256) (if s.flags.carry then 1 else 0),
            flags := { s.flags with carry := bit7 != 0 } }, io, 1, 4)
  -- DAD D
  else if op_code = 0x19 then some (s.dad s.de, io, 1, 10)
  -- LDAX D
  else if op_code = 0x1a then do
    let v ← s.read_byte s.de
    some ({ s with a := v }, io, 1, 7)
  -- MVI E, D8
  else if op_code = 0x1e then do
    let v ← s.read_byte_immediate
    some ({ s with e := v }, io, 2, 7)
  -- RAR: note the source ors the OLD bit 7 back in (`self.a |= bit7`),
  -- not the carry flag
  else if op_code = 0x1f then
    let bit0 := Nat.land s.a 1
    let bit7 := Nat.land s.a 128
    some ({ s with
            a := Nat.lor (s.a / 2) bit7,
            flags := { s.flags with carry := bit0 != 0 } }, io, 1, 4)
  -- NOP
  else if op_code = 0x20 then some (s, io, 1, 4)
  -- LXI H, D16
  else if op_code = 0x21 then do
    let v ← s.read_bytes_immediate
    some ({ s with h := v / 256, l := v % 256 }, io, 3, 10)
  -- INX H
  else if op_code = 0x23 then
    let v := (s.hl + 1) % 65536
    some ({ s with h := v / 256, l := v % 256 }, io, 1, 5)
  -- MVI H, D8
  else if op_code = 0x26 then do
    let v ← s.read_byte_immediate
    some ({ s with h := v }, io, 2, 7)
  -- DAD H
  else if op_code = 0x29 then some (s.dad s.hl, io, 1, 10)
  -- MVI L, D8
  else if op_code = 0x2e then do
    let v ← s.read_byte_immediate
    some ({ s with l := v }, io, 2, 7)
  -- CMA
  else if op_code = 0x2f then some ({ s with a := 255 - s.a % 256 }, io, 1, 4)
  -- LXI SP, D16
  else if op_code = 0x31 then do
    let v ← s.read_bytes_immediate
    some ({ s with sp := v }, io, 3, 10)
  -- STA adr
  else if op_code = 0x32 then do
    let addr ← s.read_bytes_immediate
    let s1 ← s.write_byte addr s.a
    some (s1, io, 3, 13)
  -- DCR M
  else if op_code = 0x35 then do
    let m0 ← s.read_byte s.hl
    let s1 ← s.write_m (wrapping_sub8 m0 1)
    let m1 ← s1.read_byte s1.hl
    some (set_flags s1 m1, io, 1, 10)
  -- MVI M, D8
  else if op_code = 0x36 then do
    let v ← s.read_byte_immediate
    let s1 ← s.write_m v
    some (s1, io, 2, 10)
  -- STC
  else if op_code = 0x37 then
    some ({ s with flags := { s.flags with carry := true } }, io, 1, 4)
  -- LDA adr
  else if op_code = 0x3a then do
    let addr ← s.read_bytes_immediate
    let v ← s.read_byte addr
    some ({ s with a := v }, io, 3, 13)
  -- DCR A
  else if op_code = 0x3d then
    let v := wrapping_sub8 s.a 1
    some (set_flags { s with a := v } v, io, 1, 7)
  -- MVI A, D8
  else if op_code = 0x3e then do
    let v ← s.read_byte_immediate
    some ({ s with a := v }, io, 2, 7)
  -- CMC
  else if op_code = 0x3f then
    some ({ s with flags := { s.flags with carry := !s.flags.carry } }, io, 1, 4)
  -- MOV C,A
  else if op_code = 0x4f then some ({ s with c := s.a }, io, 1, 5)
  -- MOV D,M
  else if op_code = 0x56 then do
    let v ← s.read_byte s.hl
    some ({ s with d := v }, io, 1, 7)
  -- MOV D,A
  else if op_code = 0x57 then some ({ s with d := s.a }, io, 1, 5)
  -- MOV E,M
  else if op_code = 0x5e then do
    let v ← s.read_byte s.hl
    some ({ s with e := v }, io, 1, 7)
  -- MOV E,A
  else if op_code = 0x5f then some ({ s with e := s.a }, io, 1, 5)
  -- MOV H,M
  else if op_code = 0x66 then do
    let v ← s.read_byte s.hl
    some ({ s with h := v }, io, 1, 7)
  -- MOV H,A
  else if op_code = 0x67 then some ({ s with h := s.a }, io, 1, 5)
  -- MOV L,A
  else if op_code = 0x6f then some ({ s with l := s.a }, io, 1, 5)
  -- HLT: `process::exit(0)`
  else if op_code = 0x76 then none
  -- MOV M,A
  else if op_code = 0x77 then do
    let s1 ← s.write_m s.a
    some (s1, io, 1, 7)
  -- MOV A,D
  else if op_code = 0x7a then some ({ s with a := s.d }, io, 1, 5)
  -- MOV A,E
  else if op_code = 0x7b then some ({ s with a := s.e }, io, 1, 5)
  -- MOV A,H
  else if op_code = 0x7c then some ({ s with a := s.h }, io, 1, 5)
  -- MOV A,M
  else if op_code = 0x7e then do
    let v ← s.read_byte s.hl
    some ({ s with a := v }, io, 1, 7)
  -- ADD B
  else if op_code = 0x80 then some (s.add s.b, io, 1, 4)
  -- ADD C
  else if op_code = 0x81 then some (s.add s.c, io, 1, 4)
  -- ADD D
  else if op_code = 0x82 then some (s.add s.d, io, 1, 4)
  -- ADD E
  else if op_code = 0x83 then some (s.add s.e, io, 1, 4)
  -- ADD H
  else if op_code = 0x84 then some (s.add s.h, io, 1, 4)
  -- ADD L
  else if op_code = 0x85 then some (s.add s.l, io, 1, 4)
  -- ADD M
  else if op_code = 0x86 then do
    let v ← s.read_byte s.hl
    some (s.add v, io, 1, 7)
  -- ADD A
  else if op_code = 0x87 then some (s.add s.a, io, 1, 4)
  -- ANA B
  else if op_code = 0xa0 then some (s.and s.b, io, 1, 4)
  -- ANA C
  else if op_code = 0xa1 then some (s.and s.c, io, 1, 4)
  -- ANA D
  else if op_code = 0xa2 then some (s.and s.d, io, 1, 4)
  -- ANA E
  else if op_code = 0xa3 then some (s.and s.e, io, 1, 4)
  -- ANA H
  else if op_code = 0xa4 then some (s.and s.h, io, 1, 4)
  -- ANA L
  else if op_code = 0xa5 then some (s.and s.l, io, 1, 4)
  -- ANA M
  else if op_code = 0xa6 then do
    let v ← s.read_byte s.hl
    some (s.and v, io, 1, 7)
  -- ANA A
  else if op_code = 0xa7 then some (s.and s.a, io, 1, 4)
  -- XRA B
  else if op_code = 0xa8 then some (s.xor s.b, io, 1, 4)
  -- XRA C
  else if op_code = 0xa9 then some (s.xor s.c, io, 1, 4)
  -- XRA D
  else if op_code = 0xaa then some (s.xor s.d, io, 1, 4)
  -- XRA E
  else if op_code = 0xab then some (s.xor s.e, io, 1, 4)
  -- XRA H
  else if op_code = 0xac then some (s.xor s.h, io, 1, 4)
  -- XRA L
  else if op_code = 0xad then some (s.xor s.l, io, 1, 4)
  -- XRA M
  else if op_code = 0xae then do
    let v ← s.read_byte s.hl
    some (s.xor v, io, 1, 7)
  -- XRA A
  else if op_code = 0xaf then some (s.xor s.a, io, 1, 4)
  -- ORA B
  else if op_code = 0xb0 then some (s.or s.b, io, 1, 4)
  -- ORA C
  else if op_code = 0xb1 then some (s.or s.c, io, 1, 4)
  -- ORA D
  else if op_code = 0xb2 then some (s.or s.d, io, 1, 4)
  -- ORA E
  else if op_code = 0xb3 then some (s.or s.e, io, 1, 4)
  -- ORA H
  else if op_code = 0xb4 then some (s.or s.h, io, 1, 4)
  -- ORA L
  else if op_code = 0xb5 then some (s.or s.l, io, 1, 4)
  -- ORA M
  else if op_code = 0xb6 then do
    let v ← s.read_byte s.hl
    some (s.or v, io, 1, 7)
  -- ORA A
  else if op_code = 0xb7 then some (s.or s.a, io, 1, 4)
  -- CMP B
  else if op_code = 0xb8 then some (s.cmp s.b, io, 1, 4)
  -- CMP C
  else if op_code = 0xb9 then some (s.cmp s.c, io, 1, 4)
  -- CMP D
  else if op_code = 0xba then some (s.cmp s.d, io, 1, 4)
  -- CMP E
  else if op_code = 0xbb then some (s.cmp s.e, io, 1, 4)
  -- CMP H
  else if op_code = 0xbc then some (s.cmp s.h, io, 1, 4)
  -- CMP L
  else if op_code = 0xbd then some (s.cmp s.l, io, 1, 4)
  -- CMP M
  else if op_code = 0xbe then do
    let v ← s.read_byte s.hl
    some (s.cmp v, io, 1, 7)
  -- CMP A
  else if op_code = 0xbf then some (s.cmp s.a, io, 1, 4)
  -- POP B
  else if op_code = 0xc1 then do
    let (s1, v) ← s.pop
    some ({ s1 with b := v / 256, c := v % 256 }, io, 1, 10)
  -- JNZ adr
  else if op_code = 0xc2 then
    if s.flags.zero then some (s, io, 3, 10)
    else do
      let s1 ← s.jmp
      some (s1, io, 0, 10)
  -- JMP adr
  else if op_code = 0xc3 then do
    let s1 ← s.jmp
    some (s1, io, 0, 10)
  -- PUSH B
  else if op_code = 0xc5 then do
    let s1 ← s.push s.bc
    some (s1, io, 1, 11)
  -- ADI D8
  else if op_code = 0xc6 then do
    let v ← s.read_byte_immediate
    some (s.add v, io, 2, 7)
  -- RZ: note the source's not-taken arm is `(3, 5)` — a 3-byte PC
  -- advance on a 1-byte instruction
  else if op_code = 0xc8 then
    if s.flags.zero then do
      let s1 ← s.ret
      some (s1, io, 0, 11)
    else some (s, io, 3, 5)
  -- RET
  else if op_code = 0xc9 then do
    let s1 ← s.ret
    some (s1, io, 0, 10)
  -- JZ adr
  else if op_code = 0xca then
    if s.flags.zero then do
      let s1 ← s.jmp
      some (s1, io, 0, 10)
    else some (s, io, 3, 10)
  -- CALL adr
  else if op_code = 0xcd then do
    let s1 ← s.call
    some (s1, io, 0, 17)
  -- POP D
  else if op_code = 0xd1 then do
    let (s1, v) ← s.pop
    some ({ s1 with d := v / 256, e := v % 256 }, io, 1, 10)
  -- JNC adr
  else if op_code = 0xd2 then
    if s.flags.carry then some (s, io, 3, 10)
    else do
      let s1 ← s.jmp
      some (s1, io, 0, 10)
  -- OUT D8
  else if op_code = 0xd3 then do
    let port ← s.read_byte_immediate
    let io1 ← io.output port s.a
    some (s, io1, 2, 10)
  -- PUSH D
  else if op_code = 0xd5 then do
    let s1 ← s.push s.de
    some (s1, io, 1, 11)
  -- RC
  else if op_code = 0xd8 then
    if s.flags.carry then do
      let s1 ← s.ret
      some (s1, io, 0, 11)
    else some (s, io, 1, 5)
  -- JC adr
  else if op_code = 0xda then
    if s.flags.carry then do
      let s1 ← s.jmp
      some (s1, io, 0, 10)
    else some (s, io, 3, 10)
  -- IN D8
  else if op_code = 0xdb then do
    let port ← s.read_byte_immediate
    let v ← io.input port
    some ({ s with a := v }, io, 2, 10)
  -- POP H
  else if op_code = 0xe1 then do
    let (s1, v) ← s.pop
    some ({ s1 with h := v / 256, l := v % 256 }, io, 1, 10)
  -- JPO adr
  else if op_code = 0xe2 then
    if s.flags.even_parity then some (s, io, 3, 10)
    else do
      let s1 ← s.jmp
      some (s1, io, 0, 10)
  -- PUSH H
  else if op_code = 0xe5 then do
    let s1 ← s.push s.hl
    some (s1, io, 1, 11)
  -- ANI D8
  else if op_code = 0xe6 then do
    let v ← s.read_byte_immediate
    some (s.and v, io, 2, 7)
  -- JPE adr
  else if op_code = 0xea then
    if s.flags.even_parity then do
      let s1 ← s.jmp
      some (s1, io, 0, 10)
    else some (s, io, 3, 10)
  -- XCHG
  else if op_code = 0xeb then
    some ({ s with d := s.h, e := s.l, h := s.d, l := s.e }, io, 1, 5)
  -- POP AF
  else if op_code = 0xf1 then do
    let (s1, v) ← s.pop
    some (s1.set_af v, io, 1, 10)
  -- JP adr
  else if op_code = 0xf2 then
    if s.flags.sign_negative then some (s, io, 3, 10)
    else do
      let s1 ← s.jmp
      some (s1, io, 0, 10)
  -- DI
  else if op_code = 0xf3 then some ({ s with interrupts_enabled := false }, io, 1, 4)
  -- PUSH AF
  else if op_code = 0xf5 then do
    let s1 ← s.push s.af
    some (s1, io, 1, 11)
  -- JM adr
  else if op_code = 0xfa then
    if s.flags.sign_negative then do
      let s1 ← s.jmp
      some (s1, io, 0, 10)
    else some (s, io, 3, 10)
  -- EI
  else if op_code = 0xfb then some ({ s with interrupts_enabled := true }, io, 1, 4)
  -- CPI D8
  else if op_code = 0xfe then do
    let v ← s.read_byte_immediate
    some (s.cmp v, io, 2, 7)
  -- Unimplemented: `process::exit(0)`
  else none

/-- `State8080::emulate`: fetch the opcode at PC (panics when PC is out
of the memory array), dispatch, advance PC by the returned length (u16),
return the cycles. -/
def emulate (s : State8080) (io : SpaceInvadersIo) :
    Option (State8080 × SpaceInvadersIo × Nat) := do
  let op_code ← s.read_byte s.pc
  let (s1, io1, pc_incr, cycles) ← emulateOp s io op_code
  pure ({ s1 with pc := (s1.pc + pc_incr) % 65536 }, io1, cycles)

end State8080

/-- A pixel of the decoded frame: the four RGBA channel bytes. -/
structure Pixel where
  r : Nat
  g : Nat
  b : Nat
  al : Nat
deriving DecidableEq

/-- `[0xff, 0xff, 0xff, 0xff]`: an ON pixel. -/
def whitePixel : Pixel := ⟨0xff, 0xff, 0xff, 0xff⟩

/-- `[0x00, 0x00, 0x00, 0xff]`: an OFF pixel. -/
def blackPixel : Pixel := ⟨0x00, 0x00, 0x00, 0xff⟩

/-- The loop body of `SpaceInvaders::screen`, flattened over the linear
pixel index `p` (the source iterates bytes `0x2400..0x4000` and bits
`0..8`; `p = 8 * byte_index + bit`, so the source byte is at
`0x2400 + p / 8` and the bit is `p % 8`).  Each step puts the pixel at
the running cursor `(x, y)`, then steps the cursor exactly as the
source: decrement `y`, wrapping to `(x + 1, 255)` when `y` reaches 0. -/
def screenAux (mem : Nat → Nat) : Nat → Nat → Nat → Nat →
    (Nat → Nat → Pixel) → Nat → Nat → Pixel
  | 0, _, _, _, buffer => buffer
  | fuel + 1, p, x, y, buffer =>
    let pixel_on := mem (0x2400 + p / 8) / 2 ^ (p % 8) % 2 = 1
    let pixel := if pixel_on then whitePixel else blackPixel
    let buffer1 := fun x0 y0 => if x0 = x ∧ y0 = y then pixel else buffer x0 y0
    if 0 < y then screenAux mem fuel (p + 1) x (y - 1) buffer1
    else screenAux mem fuel (p + 1) (x + 1) 255 buffer1

/-- `SpaceInvaders::screen`: decode the 7168 VRAM bytes (57344 pixels)
into the 224 × 256 buffer, starting the cursor at `(0, 255)`
(`height() - 1`); `RgbaImage::new` zero-initialises the buffer. -/
def screen (s : State8080) : Nat → Nat → Pixel :=
  screenAux s.memory 57344 0 0 255 (fun _ _ => ⟨0, 0, 0, 0⟩)

/-- The colour the source computes for linear pixel index `p`. -/
def pixColor (mem : Nat → Nat) (p : Nat) : Pixel :=
  if mem (0x2400 + p / 8) / 2 ^ (p % 8) % 2 = 1 then whitePixel else blackPixel

/-- XRA A on A = 0xAA: the result byte is 0x00. -/
def sC1 : State8080 := { State8080.new [0xaf] with a := 0xaa }

/-- INR B with the carry flag set beforehand. -/
def sC2 : State8080 :=
  { State8080.new [0x04] with flags := ⟨false, false, false, true, false⟩ }

/-- RAR with A = 0x00 and the carry flag set beforehand. -/
def sC3 : State8080 :=
  { State8080.new [0x1f] with a := 0, flags := ⟨false, false, false, true, false⟩ }

/-- RZ with the zero flag clear (the not-taken case). -/
def sC4 : State8080 := State8080.new [0xc8]

/-- A state whose memory holds 7 everywhere. -/
def sC5 : State8080 := { State8080.new [] with memory := fun _ => 7 }

/-- A state ready to take an interrupt: interrupts enabled, SP in work
RAM. -/
def sC7 : State8080 :=
  { State8080.new [] with sp := 0x2400, pc := 0x1234, interrupts_enabled := true }

/-- The VRAM scenario state: memory[0x2400] = 0x01, everything else 0. -/
def sC9 : State8080 :=
  { State8080.new [] with memory := fun x => if x = 0x2400 then 1 else 0 }

/-- A small ROM for exercising `write_byte`. -/
def sW5 : State8080 := State8080.new [1, 2, 3]

/-- ROM `IN 0x01`: reads input port 1 into A. -/
def s10 : State8080 := State8080.new [0xdb, 0x01]

/-- The state `emulate` produces from `s10`. -/
def r10 : State8080 × SpaceInvadersIo × Nat :=
  ({ s10 with a := 0b10010000, pc := 2 }, SpaceInvadersIo.new, 10)

lemma land_seven_eq_mod (v : Nat) : Nat.land v 7 = v % 8 := by
  show v &&& 7 = v % 8
  have h := Nat.and_pow_two_sub_one_eq_mod v 3
  norm_num at h
  exact h

lemma screenAux_preserve (mem : Nat → Nat) :
    ∀ (fuel p x y : Nat) (buf : Nat → Nat → Pixel) (a b : Nat),
    x = p / 256 → y = 255 - p % 256 →
    (∀ r, p ≤ r → r < p + fuel → ¬(a = r / 256 ∧ b = 255 - r % 256)) →
    screenAux mem fuel p x y buf a b = buf a b := by
  intro fuel
  induction fuel with
  | zero => intro p x y buf a b _ _ _; rfl
  | succ fuel ih =>
    intro p x y buf a b hx hy hmiss
    subst hx; subst hy
    simp only [screenAux]
    by_cases hy : 0 < 255 - p % 256
    · rw [if_pos hy]
      rw [ih (p + 1) _ _ _ a b (by omega) (by omega)
        (fun r hr1 hr2 => hmiss r (by omega) (by omega))]
      rw [if_neg]
      rintro ⟨ha, hb⟩
      exact hmiss p (le_refl p) (by omega) ⟨ha, hb⟩
    · rw [if_neg hy]
      rw [ih (p + 1) _ _ _ a b (by omega) (by omega)
        (fun r hr1 hr2 => hmiss r (by omega) (by omega))]
      rw [if_neg]
      rintro ⟨ha, hb⟩
      exact hmiss p (le_refl p) (by omega) ⟨by omega, by omega⟩

lemma screenAux_hits (mem : Nat → Nat) :
    ∀ (fuel p x y : Nat) (buf : Nat → Nat → Pixel) (q : Nat),
    x = p / 256 → y = 255 - p % 256 →
    p ≤ q → q < p + fuel →
    screenAux mem fuel p x y buf (q / 256) (255 - q % 256) = pixColor mem q := by
  intro fuel
  induction fuel with
  | zero => intro p x y buf q _ _ h1 h2; omega
  | succ fuel ih =>
    intro p x y buf q hx hy h1 h2
    subst hx; subst hy
    rcases Nat.eq_or_lt_of_le h1 with heq | hlt
    · subst heq
      simp only [screenAux]
      by_cases hy : 0 < 255 - p % 256
      · rw [if_pos hy]
        rw [screenAux_preserve mem fuel (p + 1) _ _ _ (p / 256) (255 - p % 256)
          (by omega) (by omega) ?_]
        · rw [if_pos ⟨rfl, rfl⟩]
          rfl
        · rintro r hr1 hr2 ⟨ha, hb⟩
          omega
      · rw [if_neg hy]
        rw [screenAux_preserve mem fuel (p + 1) _ _ _ (p / 256) (255 - p % 256)
          (by omega) (by omega) ?_]
        · rw [if_pos ⟨rfl, rfl⟩]
          rfl
        · rintro r hr1 hr2 ⟨ha, hb⟩
          omega
    · simp only [screenAux]
      by_cases hy : 0 < 255 - p % 256
      · rw [if_pos hy]
        exact ih (p + 1) _ _ _ q (by omega) (by omega) (by omega) (by omega)
      · rw [if_neg hy]
        exact ih (p + 1) _ _ _ q (by omega) (by omega) (by omega) (by omega)

lemma screen_pixel (s : State8080) (q : Nat) (hq : q < 57344) :
    screen s (q / 256) (255 - q % 256) = pixColor s.memory q := by
  unfold screen
  exact screenAux_hits s.memory 57344 0 0 255 _ q rfl rfl (by omega) (by omega)

/-- C1: the source's parity function returns `false` on a result byte of
0x00 (an even number of 1-bits), so XRA A — which produces 0x00 — leaves
the parity flag CLEAR, where the spec demands P set iff the count of
1-bits is even (and in particular set for 0x00).  This evaluates the code
at that failing input. -/
theorem parity_flag_zero_result_eval :
    (State8080.emulate sC1 SpaceInvadersIo.new).map
      (fun r => (r.1.a, r.1.flags.even_parity)) = some (0, false) := by decide

/-- C2: executing INR B (opcode 0x04) with the carry flag set beforehand
leaves the carry flag CLEAR, because `set_flags` unconditionally writes
`carry = false`; the spec says CY is not affected by INR/DCR.  This
evaluates the code at that failing input. -/
theorem inr_carry_clobber_eval :
    (State8080.emulate sC2 SpaceInvadersIo.new).map
      (fun r => (r.1.b, r.1.flags.carry)) = some (1, false) := by decide

/-- C3: executing RAR (opcode 0x1f) with A = 0x00 and CY = 1 produces
A = 0x00, not the A = 0x80 the claim requires (new bit 7 should be the
old CY): the source ors the OLD bit 7 of A back in instead of the carry.
This evaluates the code at that failing input. -/
theorem rar_old_bit7_eval :
    (State8080.emulate sC3 SpaceInvadersIo.new).map
      (fun r => (r.1.a, r.1.flags.carry)) = some (0, false) := by decide

/-- C4: executing RZ (opcode 0xc8) with the zero flag clear advances PC
by 3, not by the instruction length of 1 that the claim requires (the
reported not-taken cycle count of 5 does match).  This evaluates the code
at that failing input. -/
theorem rz_not_taken_pc_advance_eval :
    (State8080.emulate sC4 SpaceInvadersIo.new).map
      (fun r => (r.1.pc, r.2.2)) = some (3, 5) := by decide

/-- C5 counterexample: a read at address 0x4000 does not return the byte
stored at 0x4000 % 0x4000 = 0 (here 7); it traps (index out of
bounds). -/
theorem read_no_wrap_counterexample :
    ¬ (sC5.read_byte 0x4000 = some (sC5.memory (0x4000 % 0x4000))) := by decide

/-- C5 (amended): a memory read returns the byte at `a` when
`a < 0x4000` and traps for `a ≥ 0x4000` (no mod-0x4000 wrapping); a
memory write traps for `a < 0x2000` (ROM) and for `a ≥ 0x4000`, and
stores the byte at `a` for `0x2000 ≤ a < 0x4000`. -/
theorem memory_access_bounds (s : State8080) (a v : Nat) :
    (a < 0x4000 → s.read_byte a = some (s.memory a % 256)) ∧
    (0x4000 ≤ a → s.read_byte a = none) ∧
    (a < 0x2000 → s.write_byte a v = none) ∧
    (0x2000 ≤ a → a < 0x4000 → ∃ s', s.write_byte a v = some s' ∧
      s'.memory a = v % 256 ∧ (∀ x, x ≠ a → s'.memory x = s.memory x) ∧
      s'.pc = s.pc ∧ s'.sp = s.sp ∧ s'.flags = s.flags) ∧
    (0x4000 ≤ a → s.write_byte a v = none) := by
  unfold State8080.read_byte State8080.write_byte MEMORY_SIZE
  refine ⟨fun h => by rw [if_pos (by omega)],
          fun h => by rw [if_neg (by omega)],
          fun h => by rw [if_pos (by omega)],
          fun h1 h2 => ?_,
          fun h => by rw [if_neg (by omega), if_neg (by omega)]⟩
  rw [if_neg (by omega), if_pos (by omega)]
  refine ⟨_, rfl, by simp, fun x hx => by simp [hx], rfl, rfl, rfl⟩

/-- C5 witness: the amended theorem evaluated at a RAM read and a RAM
write. -/
theorem memory_access_bounds_witness :
    ((0x2500 : Nat) < 0x4000 ∧ sW5.read_byte 0x2500 = some (sW5.memory 0x2500 % 256)) ∧
    ((0x2000 : Nat) ≤ 0x2000 ∧ (0x2000 : Nat) < 0x4000 ∧
      ∃ s', sW5.write_byte 0x2000 300 = some s' ∧
        s'.memory 0x2000 = 300 % 256 ∧ (∀ x, x ≠ 0x2000 → s'.memory x = sW5.memory x) ∧
        s'.pc = sW5.pc ∧ s'.sp = sW5.sp ∧ s'.flags = sW5.flags) :=
  ⟨⟨by decide, (memory_access_bounds sW5 0x2500 0).1 (by decide)⟩,
   ⟨by decide, by decide, (memory_access_bounds sW5 0x2000 300).2.2.2.1 (by decide) (by decide)⟩⟩

/-- C6 counterexample: IO output to the undefined ports 0 and 7 does not
trap; the wildcard arm of the source accepts them with no state
change. -/
theorem output_undefined_port_counterexample :
    SpaceInvadersIo.output SpaceInvadersIo.new 0 0xff = some SpaceInvadersIo.new ∧
    SpaceInvadersIo.output SpaceInvadersIo.new 7 0 = some SpaceInvadersIo.new := by decide

/-- C6 (amended): IO output with port 2 sets the shift amount, port 4
updates the shift register, and EVERY other port (3, 5, 6 but also 0, 1,
7, …) is accepted with no state change; IO input with a port not in
{1, 2, 3} traps fatally. -/
theorem io_port_dispatch (io : SpaceInvadersIo) (p v : Nat) :
    (p ≠ 2 → p ≠ 4 → SpaceInvadersIo.output io p v = some io) ∧
    (SpaceInvadersIo.output io 2 v = some { io with shift_amount := v % 8 }) ∧
    (SpaceInvadersIo.output io 4 v =
      some { io with shift_register := io.shift_register / 256 % 256 + v % 256 * 256 }) ∧
    (p ≠ 1 → p ≠ 2 → p ≠ 3 → SpaceInvadersIo.input io p = none) := by
  refine ⟨fun h2 h4 => ?_, ?_, ?_, fun h1 h2 h3 => ?_⟩
  · simp [SpaceInvadersIo.output, h2, h4]
  · simp [SpaceInvadersIo.output, land_seven_eq_mod]
  · simp [SpaceInvadersIo.output]
  · simp [SpaceInvadersIo.input, h1, h2, h3]

/-- C6 witness: the amended theorem evaluated at output port 5 (accepted
silently) and input port 0 (trap). -/
theorem io_port_dispatch_witness :
    ((5 : Nat) ≠ 2 ∧ (5 : Nat) ≠ 4 ∧
      SpaceInvadersIo.output SpaceInvadersIo.new 5 0 = some SpaceInvadersIo.new) ∧
    ((0 : Nat) ≠ 1 ∧ (0 : Nat) ≠ 2 ∧ (0 : Nat) ≠ 3 ∧
      SpaceInvadersIo.input SpaceInvadersIo.new 0 = none) :=
  ⟨⟨by decide, by decide, (io_port_dispatch SpaceInvadersIo.new 5 0).1 (by decide) (by decide)⟩,
   ⟨by decide, by decide, by decide,
    (io_port_dispatch SpaceInvadersIo.new 0 0).2.2.2 (by decide) (by decide) (by decide)⟩⟩

/-- C7: `interrupt n` with interrupts disabled is a no-op; with
interrupts enabled (and SP pointing into RAM so the push does not trap)
it pushes PC little-endian at SP−2/SP−1, decrements SP by 2, sets PC to
8·n and clears `interrupts_enabled`, leaving registers, flags and all
other memory unchanged. -/
theorem interrupt_gate (s : State8080) (n : Nat) :
    (s.interrupts_enabled = false → State8080.interrupt s n = some s) ∧
    (s.interrupts_enabled = true → 0x2002 ≤ s.sp → s.sp ≤ 0x4000 → 8 * n < 65536 →
      ∃ s', State8080.interrupt s n = some s' ∧ s'.pc = 8 * n ∧
        s'.interrupts_enabled = false ∧ s'.sp = s.sp - 2 ∧
        s'.memory (s.sp - 2) = s.pc % 256 ∧ s'.memory (s.sp - 1) = s.pc / 256 % 256 ∧
        (∀ x, x ≠ s.sp - 2 → x ≠ s.sp - 1 → s'.memory x = s.memory x) ∧
        s'.a = s.a ∧ s'.b = s.b ∧ s'.c = s.c ∧ s'.d = s.d ∧ s'.e = s.e ∧
        s'.h = s.h ∧ s'.l = s.l ∧ s'.flags = s.flags) := by
  constructor
  · intro hd
    simp [State8080.interrupt, hd]
  · intro he h1 h2 h3
    unfold State8080.interrupt State8080.push State8080.write_bytes State8080.write_byte
    rw [he]
    have ha : (s.sp + 65536 - 2) % 65536 = s.sp - 2 := by omega
    rw [ha]
    rw [if_pos rfl]
    rw [if_neg (by omega : ¬ s.sp - 2 < 0x2000),
        if_pos (by unfold MEMORY_SIZE; omega : s.sp - 2 < MEMORY_SIZE)]
    simp only [Option.bind_eq_bind, Option.some_bind]
    rw [if_neg (by omega : ¬ s.sp - 2 + 1 < 0x2000),
        if_pos (by unfold MEMORY_SIZE; omega : s.sp - 2 + 1 < MEMORY_SIZE)]
    simp only [Option.some_bind, Option.pure_def, Option.some_inj]
    refine ⟨_, rfl, by simp; omega, by simp, by simp, ?_, ?_, ?_,
      by simp, by simp, by simp, by simp, by simp, by simp, by simp, by simp⟩
    · have hne : s.sp - 2 ≠ s.sp - 2 + 1 := by omega
      simp [hne]
    · have heq : s.sp - 1 = s.sp - 2 + 1 := by omega
      simp [heq]
    · intro x hx1 hx2
      have hne : x ≠ s.sp - 2 + 1 := by omega
      simp [hne, hx1]

/-- C7 witness: the theorem evaluated at interrupt number 2 from a state
with interrupts enabled and SP = 0x2400. -/
theorem interrupt_gate_witness :
    sC7.interrupts_enabled = true ∧ 0x2002 ≤ sC7.sp ∧ sC7.sp ≤ 0x4000 ∧ 8 * 2 < 65536 ∧
    ∃ s', State8080.interrupt sC7 2 = some s' ∧ s'.pc = 8 * 2 ∧
      s'.interrupts_enabled = false ∧ s'.sp = sC7.sp - 2 ∧
      s'.memory (sC7.sp - 2) = sC7.pc % 256 ∧ s'.memory (sC7.sp - 1) = sC7.pc / 256 % 256 ∧
      (∀ x, x ≠ sC7.sp - 2 → x ≠ sC7.sp - 1 → s'.memory x = sC7.memory x) ∧
      s'.a = sC7.a ∧ s'.b = sC7.b ∧ s'.c = sC7.c ∧ s'.d = sC7.d ∧ s'.e = sC7.e ∧
      s'.h = sC7.h ∧ s'.l = sC7.l ∧ s'.flags = sC7.flags :=
  ⟨rfl, by decide, by decide, by decide,
   (interrupt_gate sC7 2).2 rfl (by decide) (by decide) (by decide)⟩

/-- C8: output port 2 sets the shift amount to the low 3 bits of the
value; output port 4 moves the register's old high byte into the low
byte and stores the value as the new high byte; input port 3 returns
`(shift_register >> (8 − shift_amount)) & 0xFF`; and the concrete
scenario OUT 4 0xAA; OUT 4 0xBB; OUT 2 4; IN 3 returns 0xBA. -/
theorem shift_register_spec (io : SpaceInvadersIo) (v : Nat) :
    (SpaceInvadersIo.output io 2 v = some { io with shift_amount := v % 8 }) ∧
    (SpaceInvadersIo.output io 4 v =
      some { io with shift_register := io.shift_register / 256 % 256 + v % 256 * 256 }) ∧
    (io.shift_amount ≤ 8 →
      SpaceInvadersIo.input io 3 =
        some (io.shift_register / 2 ^ (8 - io.shift_amount) % 256)) ∧
    ((do
        let io1 ← SpaceInvadersIo.output SpaceInvadersIo.new 4 0xaa
        let io2 ← SpaceInvadersIo.output io1 4 0xbb
        let io3 ← SpaceInvadersIo.output io2 2 4
        SpaceInvadersIo.input io3 3) = some 0xba) := by
  refine ⟨?_, ?_, fun _ => ?_, by decide⟩
  · simp [SpaceInvadersIo.output, land_seven_eq_mod]
  · simp [SpaceInvadersIo.output]
  · simp [SpaceInvadersIo.input]

/-- C8 witness: the theorem evaluated at the initial IO state. -/
theorem shift_register_spec_witness :
    SpaceInvadersIo.output SpaceInvadersIo.new 2 12 =
      some { SpaceInvadersIo.new with shift_amount := 12 % 8 } ∧
    (SpaceInvadersIo.new.shift_amount ≤ 8 ∧
      SpaceInvadersIo.input SpaceInvadersIo.new 3 =
        some (SpaceInvadersIo.new.shift_register /
          2 ^ (8 - SpaceInvadersIo.new.shift_amount) % 256)) :=
  ⟨(shift_register_spec SpaceInvadersIo.new 12).1,
   by decide, (shift_register_spec SpaceInvadersIo.new 12).2.2.1 (by decide)⟩

/-- C9: for every memory and every byte index `i < 7168` and bit, the
decoded screen's pixel at `x = (8·i + bit) / 256`,
`y = 255 − ((8·i + bit) % 256)` is opaque white iff bit `bit` of the byte
at `0x2400 + i` is set, else opaque black; and in the concrete VRAM
scenario (memory[0x2400] = 0x01, all other bytes 0) the only ON pixel is
at (0, 255). -/
theorem screen_decode_spec :
    (∀ (s : State8080) (i bit : Nat), i < 7168 → bit < 8 →
      screen s ((8 * i + bit) / 256) (255 - (8 * i + bit) % 256) =
        (if s.memory (0x2400 + i) / 2 ^ bit % 2 = 1 then whitePixel else blackPixel)) ∧
    (screen sC9 0 255 = whitePixel ∧
      ∀ x y, x < 224 → y < 256 → ¬(x = 0 ∧ y = 255) → screen sC9 x y = blackPixel) := by
  refine ⟨fun s i bit hi hb => ?_, ?_, fun x y hx hy hne => ?_⟩
  · rw [screen_pixel s (8 * i + bit) (by omega)]
    unfold pixColor
    have e1 : (8 * i + bit) / 8 = i := by omega
    have e2 : (8 * i + bit) % 8 = bit := by omega
    rw [e1, e2]
  · have h := screen_pixel sC9 0 (by omega)
    norm_num at h
    rw [h]
    decide
  · have e1 : (256 * x + (255 - y)) / 256 = x := by omega
    have e2 : 255 - (256 * x + (255 - y)) % 256 = y := by omega
    have h := screen_pixel sC9 (256 * x + (255 - y)) (by omega)
    rw [e1, e2] at h
    rw [h]
    unfold pixColor
    rw [if_neg]
    set q := 256 * x + (255 - y) with hq
    by_cases h8 : q / 8 = 0
    · have hq0 : q ≠ 0 := by
        intro h0
        exact hne ⟨by omega, by omega⟩
      have hm : sC9.memory (0x2400 + q / 8) = 1 := by
        rw [h8]
        norm_num [sC9, State8080.new]
      rw [hm]
      have hlt : 1 < 2 ^ (q % 8) := by
        have : (1 : Nat) ≤ q % 8 := by omega
        calc 1 < 2 ^ 1 := by norm_num
        _ ≤ 2 ^ (q % 8) := Nat.pow_le_pow_right (by norm_num) this
      rw [Nat.div_eq_of_lt hlt]
      norm_num
    · have hm : sC9.memory (0x2400 + q / 8) = 0 := by
        have : (0x2400 : Nat) + q / 8 ≠ 0x2400 := by omega
        simp [sC9, State8080.new, this]
      rw [hm]
      norm_num

/-- C9 witness: the universal part of the theorem evaluated at the
scenario state, byte 0, bit 0. -/
theorem screen_decode_spec_witness :
    (0 : Nat) < 7168 ∧ (0 : Nat) < 8 ∧ screen sC9 0 255 = whitePixel :=
  ⟨by decide, by decide, screen_decode_spec.1 sC9 0 0 (by decide) (by decide)⟩

/-- C10: executing IN (opcode 0xdb) changes only A and PC of the CPU
state — B, C, D, E, H, L, SP, the flags, memory and
`interrupts_enabled` are unchanged and PC advances by 2; executing OUT
(opcode 0xd3) changes only PC on the CPU side, leaving A and everything
else unchanged. -/
theorem in_out_frame (s : State8080) (io : SpaceInvadersIo)
    (r : State8080 × SpaceInvadersIo × Nat) :
    (s.read_byte s.pc = some 0xdb → State8080.emulate s io = some r →
      r.1.b = s.b ∧ r.1.c = s.c ∧ r.1.d = s.d ∧ r.1.e = s.e ∧
      r.1.h = s.h ∧ r.1.l = s.l ∧ r.1.sp = s.sp ∧ r.1.flags = s.flags ∧
      r.1.memory = s.memory ∧ r.1.interrupts_enabled = s.interrupts_enabled ∧
      r.1.pc = (s.pc + 2) % 65536) ∧
    (s.read_byte s.pc = some 0xd3 → State8080.emulate s io = some r →
      r.1.a = s.a ∧ r.1.b = s.b ∧ r.1.c = s.c ∧ r.1.d = s.d ∧ r.1.e = s.e ∧
      r.1.h = s.h ∧ r.1.l = s.l ∧ r.1.sp = s.sp ∧ r.1.flags = s.flags ∧
      r.1.memory = s.memory ∧ r.1.interrupts_enabled = s.interrupts_enabled ∧
      r.1.pc = (s.pc + 2) % 65536) := by
  constructor
  · intro hop hem
    unfold State8080.emulate at hem
    rw [hop] at hem
    simp only [Option.bind_eq_bind, Option.some_bind] at hem
    simp only [State8080.emulateOp] at hem
    norm_num at hem
    cases hport : s.read_byte_immediate with
    | none => rw [hport] at hem; simp at hem
    | some port =>
      rw [hport] at hem
      simp only [Option.some_bind] at hem
      cases hin : io.input port with
      | none => rw [hin] at hem; simp at hem
      | some v =>
        rw [hin] at hem
        simp only [Option.some_bind, Option.some_inj] at hem
        subst hem
        simp
  · intro hop hem
    unfold State8080.emulate at hem
    rw [hop] at hem
    simp only [Option.bind_eq_bind, Option.some_bind] at hem
    simp only [State8080.emulateOp] at hem
    norm_num at hem
    cases hport : s.read_byte_immediate with
    | none => rw [hport] at hem; simp at hem
    | some port =>
      rw [hport] at hem
      simp only [Option.some_bind] at hem
      cases hout : io.output port s.a with
      | none => rw [hout] at hem; simp at hem
      | some io1 =>
        rw [hout] at hem
        simp only [Option.some_bind, Option.some_inj] at hem
        subst hem
        simp

/-- C10 witness: the IN part of the theorem evaluated on the ROM
`IN 0x01`. -/
theorem in_out_frame_witness :
    s10.read_byte s10.pc = some 0xdb ∧ State8080.emulate s10 SpaceInvadersIo.new = some r10 ∧
    (r10.1.b = s10.b ∧ r10.1.c = s10.c ∧ r10.1.d = s10.d ∧ r10.1.e = s10.e ∧
      r10.1.h = s10.h ∧ r10.1.l = s10.l ∧ r10.1.sp = s10.sp ∧ r10.1.flags = s10.flags ∧
      r10.1.memory = s10.memory ∧ r10.1.interrupts_enabled = s10.interrupts_enabled ∧
      r10.1.pc = (s10.pc + 2) % 65536) :=
  ⟨rfl, rfl, (in_out_frame s10 SpaceInvadersIo.new r10).1 rfl rfl⟩
